import Mathlib

/-!
# Verification of the `dbml` schema-model library

A shallow embedding of the Go package `dbml` (files `types.go`,
`generator.go`, `validator.go`, `builder.go`): the schema object graph,
the textual generator (`Generate`), and the fail-fast validator
(`Validate`).

Modelling conventions:
* Go `*string` / `*T` pointer fields become `Option`.
* Go `map[string]T` fields (`Project.Tables`, `Project.Enums`,
  `Table.Settings`) become association lists `List (String × T)`; the
  list order stands for the iteration order the Go runtime chooses for a
  particular `range` loop (Go map iteration order is unspecified).
* Go `error` results become `Option String`, carrying the rendered error
  message: `ValidationError.Error()` prints `Field: Message`, and
  `fmt.Errorf("ctx: %w", err)` prepends `"ctx: "` to the wrapped
  message.
* `strings.Join`, `strings.Builder` loops and `strings.ReplaceAll` with
  the one-character pattern `'` are modelled by the executable functions
  `joinSep`, `strConcat` and `escapeString` below.
-/

namespace DBML

/-- `strings.Join(elems, sep)`. -/
def joinSep (sep : String) : List String → String
  | [] => ""
  | [x] => x
  | x :: y :: rest => x ++ sep ++ joinSep sep (y :: rest)

/-- Concatenation of the strings written by a `strings.Builder` loop. -/
def strConcat : List String → String
  | [] => ""
  | x :: rest => x ++ strConcat rest

/-- `generator.go`: `const defaultSchema = "public"`. -/
def defaultSchema : String := "public"

/-- `types.go`: relationship cardinality `OneToMany RelType = "<"`.
`RelType` is a Go string type, embedded as `String`. -/
def OneToMany : String := "<"

/-- `types.go`: `ManyToOne RelType = ">"`. -/
def ManyToOne : String := ">"

/-- `types.go`: `OneToOne RelType = "-"`. -/
def OneToOne : String := "-"

/-- `types.go`: `ManyToMany RelType = "<>"`. -/
def ManyToMany : String := "<>"

/-- `types.go`: referential action constants (`RefAction` is a Go string
type, embedded as `String`): `cascade`, `restrict`, `set null`,
`set default`, `no action`. -/
def Cascade : String := "cascade"

/-- `types.go`: `Restrict RefAction = "restrict"`. -/
def Restrict : String := "restrict"

/-- `types.go`: `SetNull RefAction = "set null"`. -/
def SetNull : String := "set null"

/-- `types.go`: `SetDefault RefAction = "set default"`. -/
def SetDefault : String := "set default"

/-- `types.go`: `NoAction RefAction = "no action"`. -/
def NoAction : String := "no action"

/-- `types.go`: `ColumnSettings` — all column-level settings.  Go field
`Null` is the nullable flag (zero value `false`). -/
structure ColumnSettings where
  Default : Option String
  Check : Option String
  PrimaryKey : Bool
  Null : Bool
  Unique : Bool
  Increment : Bool
deriving DecidableEq

/-- `types.go`: `InlineRef` — an inline relationship attached to a
column.  Go field `Type` (a keyword in Lean) is embedded as `type_`. -/
structure InlineRef where
  type_ : String
  Schema : String
  Table : String
  Column : String
deriving DecidableEq

/-- `types.go`: `Column`. -/
structure Column where
  Settings : Option ColumnSettings
  Note : Option String
  InlineRef : Option InlineRef
  Name : String
  type_ : String
deriving DecidableEq

/-- `types.go`: `IndexColumn` — a plain column name or an expression. -/
structure IndexColumn where
  Name : Option String
  Expression : Option String
deriving DecidableEq

/-- `types.go`: `Index`. -/
structure Index where
  type_ : Option String
  Name : Option String
  Note : Option String
  Columns : List IndexColumn
  Unique : Bool
  PrimaryKey : Bool
deriving DecidableEq

/-- `types.go`: `RefEndpoint` — one side of a relationship. -/
structure RefEndpoint where
  Schema : String
  Table : String
  Columns : List String
deriving DecidableEq

/-- `types.go`: `Ref` — a standalone relationship.  The Go pointers
`Left`/`Right` become `Option`. -/
structure Ref where
  Name : Option String
  Left : Option RefEndpoint
  Right : Option RefEndpoint
  OnDelete : Option String
  OnUpdate : Option String
  Color : Option String
  type_ : String
deriving DecidableEq

/-- `types.go`: `Enum`. -/
structure Enum where
  Note : Option String
  Schema : String
  Name : String
  Values : List String
deriving DecidableEq

/-- `types.go`: `TableRef` — a table reference inside a `TableGroup`. -/
structure TableRef where
  Schema : String
  Name : String
deriving DecidableEq

/-- `types.go`: `TableGroup`. -/
structure TableGroup where
  Name : String
  Tables : List TableRef
deriving DecidableEq

/-- `types.go`: `Table`.  The Go `map[string]string` settings become an
association list in iteration order. -/
structure Table where
  Alias : Option String
  Note : Option String
  Settings : List (String × String)
  Schema : String
  Name : String
  Columns : List Column
  Indexes : List Index
deriving DecidableEq

/-- `types.go`: `Project`.  The Go maps `Tables`/`Enums` become
association lists in iteration order. -/
structure Project where
  Name : String
  DatabaseType : Option String
  Note : Option String
  Tables : List (String × Table)
  Enums : List (String × Enum)
  TableGroups : List TableGroup
  Refs : List Ref
deriving DecidableEq

/-! ## Generator (`generator.go`) -/

/-- `generator.go` `escapeString`: `strings.ReplaceAll(s, "'", "\\'")`.
Since the pattern is a single character, this is the per-character
replacement of `'` by `\'`. -/
def escapeString (s : String) : String :=
  String.mk ((s.data.map (fun c => if c = '\'' then ['\\', '\''] else [c])).flatten)

/-- Go's `%q` verb applied to an enum value, for the characters the
library quotes (double-quote and backslash are escaped, other
characters pass through). -/
def goQuote (v : String) : String :=
  "\"" ++ String.mk ((v.data.map (fun c => if c = '"' ∨ c = '\\' then ['\\', c] else [c])).flatten) ++ "\""

/-- `generator.go` `formatRefEndpoint`: a `nil` endpoint renders as the
empty string; the default schema is elided; a single column renders
`table.column`, several render `table.(c1, c2, ...)`. -/
def formatRefEndpoint : Option RefEndpoint → String
  | none => ""
  | some e =>
    let tableName := if e.Schema ≠ defaultSchema then e.Schema ++ "." ++ e.Table else e.Table
    match e.Columns with
    | [c] => tableName ++ "." ++ c
    | cols => tableName ++ "." ++ "(" ++ joinSep ", " cols ++ ")"

/-- `generator.go` `Column.Generate`: the attribute entries contributed
by the `Settings` bundle, in source order (pk, unique, not null,
increment, default, check). -/
def columnSettingAttrs (c : Column) : List String :=
  match c.Settings with
  | none => []
  | some s =>
    (if s.PrimaryKey then ["pk"] else []) ++
    (if s.Unique then ["unique"] else []) ++
    (if !s.Null then ["not null"] else []) ++
    (if s.Increment then ["increment"] else []) ++
    (match s.Default with
     | some d => ["default: " ++ d]
     | none => []) ++
    (match s.Check with
     | some ch => ["check: '" ++ escapeString ch ++ "'"]
     | none => [])

/-- `generator.go` `Column.Generate`: the inline-relationship attribute.
The target is always `schema.table.column`, with no default-schema
elision. -/
def columnRefAttr (c : Column) : List String :=
  match c.InlineRef with
  | some r => ["ref: " ++ r.type_ ++ " " ++ (r.Schema ++ "." ++ r.Table ++ "." ++ r.Column)]
  | none => []

/-- `generator.go` `Column.Generate`: the column-note attribute. -/
def columnNoteAttr (c : Column) : List String :=
  match c.Note with
  | some n => ["note: '" ++ escapeString n ++ "'"]
  | none => []

/-- `generator.go` `Column.Generate`: the full `settings` slice. -/
def columnSettingsList (c : Column) : List String :=
  columnSettingAttrs c ++ columnRefAttr c ++ columnNoteAttr c

/-- `generator.go` `Column.Generate`. -/
def Column.Generate (c : Column) : String :=
  c.Name ++ " " ++ c.type_ ++
    (if (columnSettingsList c).length > 0 then
      " [" ++ joinSep ", " (columnSettingsList c) ++ "]"
    else "")

/-- `generator.go` `Index.Generate`. -/
def Index.Generate (i : Index) : String :=
  let columns := (i.Columns.map (fun col =>
    match col.Name with
    | some n => [n]
    | none =>
      match col.Expression with
      | some e => ["`" ++ e ++ "`"]
      | none => [])).flatten
  let settings :=
    (if i.PrimaryKey then ["pk"] else []) ++
    (if i.Unique then ["unique"] else []) ++
    (match i.type_ with
     | some ty => ["type: " ++ ty]
     | none => []) ++
    (match i.Name with
     | some n => ["name: '" ++ escapeString n ++ "'"]
     | none => []) ++
    (match i.Note with
     | some n => ["note: '" ++ escapeString n ++ "'"]
     | none => [])
  "(" ++ joinSep ", " columns ++ ")" ++
    (if settings.length > 0 then " [" ++ joinSep ", " settings ++ "]" else "")

/-- `generator.go` `Ref.Generate`, up to the `" {"`: the `Ref [name]`
word and the optional `[delete/update/color]` settings bracket. -/
def Ref.headerPart (r : Ref) : String :=
  (match r.Name with
   | some n => "Ref " ++ n
   | none => "Ref") ++
  (let settings :=
    (match r.OnDelete with
     | some a => ["delete: " ++ a]
     | none => []) ++
    (match r.OnUpdate with
     | some a => ["update: " ++ a]
     | none => []) ++
    (match r.Color with
     | some col => ["color: " ++ col]
     | none => [])
   if settings.length > 0 then " [" ++ joinSep ", " settings ++ "]" else "")

/-- `generator.go` `Ref.Generate`. -/
def Ref.Generate (r : Ref) : String :=
  Ref.headerPart r ++ " \x7b\n" ++ "  " ++ formatRefEndpoint r.Left ++ " " ++
    r.type_ ++ " " ++ formatRefEndpoint r.Right ++ "\n" ++ "\x7d\n"

/-- `generator.go` `Enum.Generate`: one line per value, double-quoted
when the value contains a space. -/
def enumValueLine (v : String) : String :=
  if v.data.contains ' ' then "  " ++ goQuote v ++ "\n" else "  " ++ v ++ "\n"

/-- `generator.go` `Enum.Generate`. -/
def Enum.Generate (e : Enum) : String :=
  "Enum " ++ (if e.Schema ≠ defaultSchema then e.Schema ++ "." ++ e.Name else e.Name) ++
    " \x7b\n" ++
  strConcat (e.Values.map enumValueLine) ++
  (match e.Note with
   | some n => "\n" ++ "  Note: '" ++ escapeString n ++ "'\n"
   | none => "") ++
  "\x7d\n"

/-- `generator.go` `TableGroup.Generate`. -/
def TableGroup.Generate (g : TableGroup) : String :=
  "TableGroup " ++ g.Name ++ " \x7b\n" ++
  strConcat (g.Tables.map (fun tr =>
    "  " ++ (if tr.Schema ≠ defaultSchema then tr.Schema ++ "." ++ tr.Name else tr.Name) ++ "\n")) ++
  "\x7d\n"

/-- `generator.go` `Table.Generate`: the table name written after
`"Table "` — default schema elided, optional ` as alias` suffix. -/
def Table.headerName (t : Table) : String :=
  (if t.Schema ≠ defaultSchema then t.Schema ++ "." ++ t.Name else t.Name) ++
  (match t.Alias with
   | some a => " as " ++ a
   | none => "")

/-- `generator.go` `Table.Generate`: everything written after the table
name — settings bracket, column lines, indexes block, note, close. -/
def Table.bodyPart (t : Table) : String :=
  (if t.Settings.length > 0 then
    " [" ++ joinSep ", " (t.Settings.map (fun kv => kv.1 ++ ": " ++ kv.2)) ++ "]"
  else "") ++
  " \x7b\n" ++
  strConcat (t.Columns.map (fun c => "  " ++ Column.Generate c ++ "\n")) ++
  (if t.Indexes.length > 0 then
    "\n  indexes \x7b\n" ++ strConcat (t.Indexes.map (fun i => "    " ++ Index.Generate i ++ "\n")) ++ "  \x7d\n"
  else "") ++
  (match t.Note with
   | some n => "\n" ++ "  Note: '" ++ escapeString n ++ "'\n"
   | none => "") ++
  "\x7d\n"

/-- `generator.go` `Table.Generate`. -/
def Table.Generate (t : Table) : String :=
  "Table " ++ Table.headerName t ++ Table.bodyPart t

/-- `generator.go` `Project.Generate`. -/
def Project.Generate (p : Project) : String :=
  (if p.Name ≠ "" then
    "Project " ++ p.Name ++ " \x7b\n" ++
    (match p.DatabaseType with
     | some d => "  database_type: '" ++ d ++ "'\n"
     | none => "") ++
    (match p.Note with
     | some n => "  Note: '" ++ escapeString n ++ "'\n"
     | none => "") ++
    "\x7d\n\n"
  else "") ++
  strConcat (p.Enums.map (fun kv => Enum.Generate kv.2 ++ "\n")) ++
  strConcat (p.Tables.map (fun kv => Table.Generate kv.2 ++ "\n")) ++
  strConcat (p.Refs.map (fun r => Ref.Generate r ++ "\n")) ++
  strConcat (p.TableGroups.map (fun g => TableGroup.Generate g ++ "\n"))

/-! ## Validator (`validator.go`)

Errors are embedded as their rendered message:
`ValidationError{Field, Message}` prints `Field ++ ": " ++ Message`, and
`fmt.Errorf("ctx: %w", err)` prepends `"ctx: "`. -/

/-- `ValidationError.Error()`: `fmt.Sprintf("%s: %s", Field, Message)`. -/
def validationError (field msg : String) : String :=
  field ++ ": " ++ msg

/-- Go's `if err := child(); err != nil { return err }` sequencing: the
first error, if any, short-circuits. -/
def firstErr (a b : Option String) : Option String :=
  match a with
  | some e => some e
  | none => b

/-- `validator.go` `Ref.Validate` / `InlineRef.Validate`: the
`validTypes` membership test on a relationship type. -/
def validRelType (t : String) : Bool :=
  t = OneToMany ∨ t = ManyToOne ∨ t = OneToOne ∨ t = ManyToMany

/-- `validator.go` `validateRefAction`: the `validActions` membership
test. -/
def validRefAction (a : String) : Bool :=
  a = Cascade ∨ a = Restrict ∨ a = SetNull ∨ a = SetDefault ∨ a = NoAction

/-- `validator.go` `validateRefAction`. -/
def validateRefAction (a : String) : Option String :=
  if ¬ validRefAction a then
    some (validationError "RefAction" ("invalid referential action: " ++ a))
  else none

/-- `validator.go` `RefEndpoint.Validate`. -/
def RefEndpoint.Validate (e : RefEndpoint) : Option String :=
  if e.Schema = "" then some (validationError "RefEndpoint.Schema" "schema is required")
  else if e.Table = "" then some (validationError "RefEndpoint.Table" "table is required")
  else if e.Columns.length = 0 then
    some (validationError "RefEndpoint.Columns" "at least one column is required")
  else none

/-- `validator.go` `InlineRef.Validate`. -/
def InlineRef.Validate (r : InlineRef) : Option String :=
  if r.Schema = "" then some (validationError "InlineRef.Schema" "schema is required")
  else if r.Table = "" then some (validationError "InlineRef.Table" "table is required")
  else if r.Column = "" then some (validationError "InlineRef.Column" "column is required")
  else if r.type_ = "" then
    some (validationError "InlineRef.Type" "relationship type is required")
  else if ¬ validRelType r.type_ then
    some (validationError "InlineRef.Type" ("invalid relationship type: " ++ r.type_))
  else none

/-- `validator.go` `Ref.Validate`. -/
def Ref.Validate (r : Ref) : Option String :=
  match r.Left with
  | none => some (validationError "Ref.Left" "left endpoint is required")
  | some l =>
    match r.Right with
    | none => some (validationError "Ref.Right" "right endpoint is required")
    | some rt =>
      if r.type_ = "" then
        some (validationError "Ref.Type" "relationship type is required")
      else if ¬ validRelType r.type_ then
        some (validationError "Ref.Type" ("invalid relationship type: " ++ r.type_))
      else
        firstErr ((RefEndpoint.Validate l).map (fun e => "left: " ++ e))
          (firstErr ((RefEndpoint.Validate rt).map (fun e => "right: " ++ e))
            (firstErr
              (match r.OnDelete with
               | some a => (validateRefAction a).map (fun e => "on_delete: " ++ e)
               | none => none)
              (match r.OnUpdate with
               | some a => (validateRefAction a).map (fun e => "on_update: " ++ e)
               | none => none)))

/-- `validator.go` `Column.Validate`. -/
def Column.Validate (c : Column) : Option String :=
  if c.Name = "" then some (validationError "Column.Name" "name is required")
  else if c.type_ = "" then some (validationError "Column.Type" "type is required")
  else
    match c.InlineRef with
    | some ir => (InlineRef.Validate ir).map (fun e => "inline_ref: " ++ e)
    | none => none

/-- `validator.go` `Index.Validate`: the loop over `i.Columns`, carrying
the running index used in the error's field path. -/
def validateIndexColumns : Nat → List IndexColumn → Option String
  | _, [] => none
  | k, col :: rest =>
    if col.Name = none ∧ col.Expression = none then
      some (validationError ("Index.Columns[" ++ toString k ++ "]")
        "either name or expression is required")
    else if col.Name ≠ none ∧ col.Expression ≠ none then
      some (validationError ("Index.Columns[" ++ toString k ++ "]")
        "cannot have both name and expression")
    else validateIndexColumns (k + 1) rest

/-- `validator.go` `Index.Validate`. -/
def Index.Validate (i : Index) : Option String :=
  if i.Columns.length = 0 then
    some (validationError "Index.Columns" "at least one column is required")
  else validateIndexColumns 0 i.Columns

/-- Go's indexed validation loop
`for i, x := range xs { if err := x.Validate(); err != nil { return
fmt.Errorf("label %d: %w", i, err) } }`. -/
def validateSeq {α : Type} (f : α → Option String) (label : String) :
    Nat → List α → Option String
  | _, [] => none
  | k, x :: rest =>
    match f x with
    | some e => some (label ++ " " ++ toString k ++ ": " ++ e)
    | none => validateSeq f label (k + 1) rest

/-- Go's keyed validation loop
`for key, x := range m { if err := x.Validate(); err != nil { return
fmt.Errorf("label %s: %w", key, err) } }`. -/
def validateKeyed {α : Type} (f : α → Option String) (label : String) :
    List (String × α) → Option String
  | [] => none
  | (k, x) :: rest =>
    match f x with
    | some e => some (label ++ " " ++ k ++ ": " ++ e)
    | none => validateKeyed f label rest

/-- `validator.go` `Table.Validate`. -/
def Table.Validate (t : Table) : Option String :=
  if t.Name = "" then some (validationError "Table.Name" "name is required")
  else if t.Schema = "" then some (validationError "Table.Schema" "schema is required")
  else if t.Columns.length = 0 then
    some (validationError "Table.Columns" "at least one column is required")
  else
    firstErr (validateSeq Column.Validate "column" 0 t.Columns)
      (validateSeq Index.Validate "index" 0 t.Indexes)

/-- `validator.go` `Enum.Validate`. -/
def Enum.Validate (e : Enum) : Option String :=
  if e.Name = "" then some (validationError "Enum.Name" "name is required")
  else if e.Schema = "" then some (validationError "Enum.Schema" "schema is required")
  else if e.Values.length = 0 then
    some (validationError "Enum.Values" "at least one value is required")
  else none

/-- `validator.go` `TableGroup.Validate`: the loop over the group's
table references, carrying the running index used in the field path. -/
def validateTableRefs : Nat → List TableRef → Option String
  | _, [] => none
  | k, tr :: rest =>
    if tr.Schema = "" then
      some (validationError ("TableGroup.Tables[" ++ toString k ++ "].Schema")
        "schema is required")
    else if tr.Name = "" then
      some (validationError ("TableGroup.Tables[" ++ toString k ++ "].Name")
        "name is required")
    else validateTableRefs (k + 1) rest

/-- `validator.go` `TableGroup.Validate`. -/
def TableGroup.Validate (g : TableGroup) : Option String :=
  if g.Name = "" then some (validationError "TableGroup.Name" "name is required")
  else if g.Tables.length = 0 then
    some (validationError "TableGroup.Tables" "at least one table is required")
  else validateTableRefs 0 g.Tables

/-- `validator.go` `Project.Validate`. -/
def Project.Validate (p : Project) : Option String :=
  if p.Name = "" then some (validationError "Project.Name" "name is required")
  else
    firstErr (validateKeyed Table.Validate "table" p.Tables)
      (firstErr (validateKeyed Enum.Validate "enum" p.Enums)
        (firstErr (validateSeq Ref.Validate "ref" 0 p.Refs)
          (validateSeq TableGroup.Validate "table_group" 0 p.TableGroups)))

/-! ## Spec-side definitions

These follow the specification's wording (traversal order, attribute
order, elision and escaping rules) and are compared against the source
embeddings above. -/

/-- Spec §4.2: a schema name equal to the literal `"public"` is omitted
from qualified names; any other schema is rendered as `schema.name`. -/
def specQualify (schema name : String) : String :=
  if schema = "public" then name else schema ++ "." ++ name

/-- Spec §4.2, column line: the attribute list in the documented fixed
order — pk, unique, not null (when the nullable flag is false),
increment, default, check, ref, note. -/
def specColumnAttrs (c : Column) : List String :=
  List.flatten
    [(match c.Settings with
      | none => []
      | some s =>
        List.flatten
          [if s.PrimaryKey then ["pk"] else [],
           if s.Unique then ["unique"] else [],
           if s.Null = false then ["not null"] else [],
           if s.Increment then ["increment"] else [],
           s.Default.toList.map (fun d => "default: " ++ d),
           s.Check.toList.map (fun ch => "check: '" ++ escapeString ch ++ "'")]),
     c.InlineRef.toList.map (fun r =>
       "ref: " ++ r.type_ ++ " " ++ (r.Schema ++ "." ++ r.Table ++ "." ++ r.Column)),
     c.Note.toList.map (fun n => "note: '" ++ escapeString n ++ "'")]

/-- Spec §4.2, string escaping: each single quote is rendered preceded
by a backslash; every other character is passed through unchanged. -/
def specEscapeChars : List Char → List Char
  | [] => []
  | c :: cs => if c = '\'' then '\\' :: '\'' :: specEscapeChars cs else c :: specEscapeChars cs

/-- Spec §4.1: all violations of a `RefEndpoint`, in check order. -/
def endpointViolations (e : RefEndpoint) : List String :=
  (if e.Schema = "" then [validationError "RefEndpoint.Schema" "schema is required"] else []) ++
  (if e.Table = "" then [validationError "RefEndpoint.Table" "table is required"] else []) ++
  (if e.Columns.length = 0 then
    [validationError "RefEndpoint.Columns" "at least one column is required"]
  else [])

/-- Spec §4.1: all violations of an `InlineRef`, in check order. -/
def inlineRefViolations (r : InlineRef) : List String :=
  (if r.Schema = "" then [validationError "InlineRef.Schema" "schema is required"] else []) ++
  (if r.Table = "" then [validationError "InlineRef.Table" "table is required"] else []) ++
  (if r.Column = "" then [validationError "InlineRef.Column" "column is required"] else []) ++
  (if r.type_ = "" then [validationError "InlineRef.Type" "relationship type is required"] else []) ++
  (if ¬ validRelType r.type_ then
    [validationError "InlineRef.Type" ("invalid relationship type: " ++ r.type_)]
  else [])

/-- Spec §4.1: all violations of a `Column`, in check order; an inline
ref's violations are wrapped with the `inline_ref: ` path segment. -/
def columnViolations (c : Column) : List String :=
  (if c.Name = "" then [validationError "Column.Name" "name is required"] else []) ++
  (if c.type_ = "" then [validationError "Column.Type" "type is required"] else []) ++
  (match c.InlineRef with
   | some ir => (inlineRefViolations ir).map (fun e => "inline_ref: " ++ e)
   | none => [])

/-- Spec §4.1: all violations of an index's column list, in declared
order, with zero-based positions in the field path. -/
def indexColumnViolations : Nat → List IndexColumn → List String
  | _, [] => []
  | k, col :: rest =>
    (if col.Name = none ∧ col.Expression = none then
      [validationError ("Index.Columns[" ++ toString k ++ "]") "either name or expression is required"]
    else []) ++
    (if col.Name ≠ none ∧ col.Expression ≠ none then
      [validationError ("Index.Columns[" ++ toString k ++ "]") "cannot have both name and expression"]
    else []) ++
    indexColumnViolations (k + 1) rest

/-- Spec §4.1: all violations of an `Index`, in check order. -/
def indexViolations (i : Index) : List String :=
  (if i.Columns.length = 0 then
    [validationError "Index.Columns" "at least one column is required"]
  else []) ++
  indexColumnViolations 0 i.Columns

/-- Spec §4.1: all violations of a sequence of children, each wrapped
with `label <zero-based index>: `. -/
def seqViolations {α : Type} (f : α → List String) (label : String) :
    Nat → List α → List String
  | _, [] => []
  | k, x :: rest =>
    (f x).map (fun e => label ++ " " ++ toString k ++ ": " ++ e) ++
    seqViolations f label (k + 1) rest

/-- Spec §4.1: all violations of a keyed collection of children, each
wrapped with `label <map key>: `. -/
def keyedViolations {α : Type} (f : α → List String) (label : String) :
    List (String × α) → List String
  | [] => []
  | (k, x) :: rest =>
    (f x).map (fun e => label ++ " " ++ k ++ ": " ++ e) ++
    keyedViolations f label rest

/-- Spec §4.1: all violations of a `Table` — its own fields, then its
columns in declared order, then its indexes in declared order. -/
def tableViolations (t : Table) : List String :=
  (if t.Name = "" then [validationError "Table.Name" "name is required"] else []) ++
  (if t.Schema = "" then [validationError "Table.Schema" "schema is required"] else []) ++
  (if t.Columns.length = 0 then
    [validationError "Table.Columns" "at least one column is required"]
  else []) ++
  seqViolations columnViolations "column" 0 t.Columns ++
  seqViolations indexViolations "index" 0 t.Indexes

/-- Spec §4.1: all violations of a `Ref`, in check order — missing
endpoints, the cardinality type, the left then right endpoint (wrapped
with `left: `/`right: `), then the referential actions. -/
def refViolations (r : Ref) : List String :=
  (if r.Left = none then [validationError "Ref.Left" "left endpoint is required"] else []) ++
  (if r.Right = none then [validationError "Ref.Right" "right endpoint is required"] else []) ++
  (if r.type_ = "" then [validationError "Ref.Type" "relationship type is required"] else []) ++
  (if ¬ validRelType r.type_ then
    [validationError "Ref.Type" ("invalid relationship type: " ++ r.type_)]
  else []) ++
  (match r.Left with
   | some l => (endpointViolations l).map (fun e => "left: " ++ e)
   | none => []) ++
  (match r.Right with
   | some rt => (endpointViolations rt).map (fun e => "right: " ++ e)
   | none => []) ++
  (match r.OnDelete with
   | some a =>
     if ¬ validRefAction a then
       ["on_delete: " ++ validationError "RefAction" ("invalid referential action: " ++ a)]
     else []
   | none => []) ++
  (match r.OnUpdate with
   | some a =>
     if ¬ validRefAction a then
       ["on_update: " ++ validationError "RefAction" ("invalid referential action: " ++ a)]
     else []
   | none => [])

/-- Spec §4.1: all violations of an `Enum`, in check order. -/
def enumViolations (e : Enum) : List String :=
  (if e.Name = "" then [validationError "Enum.Name" "name is required"] else []) ++
  (if e.Schema = "" then [validationError "Enum.Schema" "schema is required"] else []) ++
  (if e.Values.length = 0 then
    [validationError "Enum.Values" "at least one value is required"]
  else [])

/-- Spec §4.1: all violations of a table group's member references, in
declared order. -/
def tableRefViolations : Nat → List TableRef → List String
  | _, [] => []
  | k, tr :: rest =>
    (if tr.Schema = "" then
      [validationError ("TableGroup.Tables[" ++ toString k ++ "].Schema") "schema is required"]
    else []) ++
    (if tr.Name = "" then
      [validationError ("TableGroup.Tables[" ++ toString k ++ "].Name") "name is required"]
    else []) ++
    tableRefViolations (k + 1) rest

/-- Spec §4.1: all violations of a `TableGroup`, in check order. -/
def tableGroupViolations (g : TableGroup) : List String :=
  (if g.Name = "" then [validationError "TableGroup.Name" "name is required"] else []) ++
  (if g.Tables.length = 0 then
    [validationError "TableGroup.Tables" "at least one table is required"]
  else []) ++
  tableRefViolations 0 g.Tables

/-- Spec §4.1: all violations of a `Project` in the documented traversal
order — project-level fields, tables, enums, refs, table groups — each
child's violations wrapped with its path segment. -/
def projectViolations (p : Project) : List String :=
  (if p.Name = "" then [validationError "Project.Name" "name is required"] else []) ++
  keyedViolations tableViolations "table" p.Tables ++
  keyedViolations enumViolations "enum" p.Enums ++
  seqViolations refViolations "ref" 0 p.Refs ++
  seqViolations tableGroupViolations "table_group" 0 p.TableGroups

/-! ## Concrete inputs used by witnesses and counterexamples -/

/-- A `Ref` with one left column and two right columns, both endpoints
fully populated and a recognized cardinality. -/
def c1Ref : Ref :=
  { Name := none, Left := some ⟨"public", "posts", ["a"]⟩,
    Right := some ⟨"public", "users", ["a", "b"]⟩,
    OnDelete := none, OnUpdate := none, Color := none, type_ := ">" }

/-- A `Ref` whose left endpoint is absent. -/
def c2Ref : Ref :=
  { Name := none, Left := none, Right := some ⟨"public", "users", ["id"]⟩,
    OnDelete := none, OnUpdate := none, Color := none, type_ := ">" }

/-- A minimal table named `a` in the default schema. -/
def c4TableA : Table :=
  { Alias := none, Note := none, Settings := [], Schema := "public", Name := "a",
    Columns := [], Indexes := [] }

/-- A minimal table named `b` in the default schema. -/
def c4TableB : Table :=
  { Alias := none, Note := none, Settings := [], Schema := "public", Name := "b",
    Columns := [], Indexes := [] }

/-- A project whose `Tables` map is enumerated `a` before `b`. -/
def c4ProjAB : Project :=
  { Name := "p", DatabaseType := none, Note := none,
    Tables := [("public.a", c4TableA), ("public.b", c4TableB)],
    Enums := [], TableGroups := [], Refs := [] }

/-- The same map contents enumerated `b` before `a`. -/
def c4ProjBA : Project :=
  { Name := "p", DatabaseType := none, Note := none,
    Tables := [("public.b", c4TableB), ("public.a", c4TableA)],
    Enums := [], TableGroups := [], Refs := [] }

/-- The spec's single-expression index `date(created_at)`. -/
def c7ExprIndex : Index :=
  { type_ := none, Name := none, Note := none,
    Columns := [⟨none, some "date(created_at)"⟩], Unique := false, PrimaryKey := false }

/-- A column with no settings bundle, no inline ref and no note. -/
def c9ColNil : Column :=
  { Settings := none, Note := none, InlineRef := none, Name := "id", type_ := "bigint" }

/-- A column whose settings bundle is present with every field at its
zero value. -/
def c9ColDefaults : Column :=
  { Settings := some ⟨none, none, false, false, false, false⟩,
    Note := none, InlineRef := none, Name := "id", type_ := "bigint" }

/-- A column with an inline relationship into the default schema. -/
def c10Col : Column :=
  { Settings := none, Note := none, InlineRef := some ⟨">", "public", "users", "id"⟩,
    Name := "user_id", type_ := "bigint" }

/-! ## Helper lemmas -/

theorem head?_append_or (l m : List String) : (l ++ m).head? = (l.head?).or m.head? := by
  cases l <;> simp

theorem firstErr_eq_or (a b : Option String) : firstErr a b = a.or b := by
  cases a <;> simp [firstErr]

theorem firstErr_eq_head (a b : Option String) (la lb : List String)
    (ha : a = la.head?) (hb : b = lb.head?) : firstErr a b = (la ++ lb).head? := by
  subst ha
  subst hb
  cases la <;> simp [firstErr]

theorem map_head? (f : String → String) (l : List String) :
    (l.head?).map f = (l.map f).head? := by
  cases l <;> simp

/-! ## Claims -/

/-- C8: in every string literal that `Generate` emits inside single
quotes, `escapeString` renders each single-quote character of the input
preceded by a backslash and passes every other character through
unchanged: its output agrees character-for-character with the spec-side
`specEscapeChars` transform. -/
theorem escapeString_only_escapes_single_quotes :
    ∀ s : String, (escapeString s).data = specEscapeChars s.data := by
  intro s
  obtain ⟨l⟩ := s
  show ((l.map (fun c => if c = '\'' then ['\\', '\''] else [c])).flatten) = specEscapeChars l
  induction l with
  | nil => rfl
  | cons c cs ih =>
    by_cases h : c = '\''
    · simp [h, specEscapeChars, ih]
    · simp [h, specEscapeChars, ih]

/-- C2: `Generate` is a total function of the project graph — it always
returns a string, with no failure path — and a `Ref` whose left or right
endpoint is absent renders that endpoint as the empty string inside the
`Ref` block. -/
theorem generate_total_and_missing_endpoint_empty :
    (∀ p : Project, ∃ s : String, Project.Generate p = s) ∧
    (formatRefEndpoint none = "") ∧
    (∀ r : Ref, r.Left = none →
      Ref.Generate r = Ref.headerPart r ++ " \x7b\n" ++ "  " ++ "" ++ " " ++ r.type_ ++ " " ++
        formatRefEndpoint r.Right ++ "\n" ++ "\x7d\n") ∧
    (∀ r : Ref, r.Right = none →
      Ref.Generate r = Ref.headerPart r ++ " \x7b\n" ++ "  " ++ formatRefEndpoint r.Left ++ " " ++
        r.type_ ++ " " ++ "" ++ "\n" ++ "\x7d\n") := by
  refine ⟨fun p => ⟨Project.Generate p, rfl⟩, rfl, ?_, ?_⟩
  · intro r h
    unfold Ref.Generate
    rw [h]
    rfl
  · intro r h
    unfold Ref.Generate
    rw [h]
    rfl

/-- C2 witness: the theorem applied to the concrete ref `c2Ref`, whose
left endpoint is absent. -/
theorem generate_missing_endpoint_witness :
    c2Ref.Left = none ∧
    Ref.Generate c2Ref = Ref.headerPart c2Ref ++ " \x7b\n" ++ "  " ++ "" ++ " " ++ c2Ref.type_ ++
      " " ++ formatRefEndpoint c2Ref.Right ++ "\n" ++ "\x7d\n" :=
  ⟨rfl, generate_total_and_missing_endpoint_empty.2.2.1 c2Ref rfl⟩

/-- C4 counterexample: the two association lists below are permutations
of each other — the same Go map contents, enumerated in two orders the
runtime is free to choose on different calls — yet `Generate` produces
different strings, so byte-identical output across repeated calls is not
guaranteed by the code. -/
theorem generate_map_iteration_order_counterexample :
    c4ProjAB.Tables.Perm c4ProjBA.Tables ∧
    c4ProjAB.Name = c4ProjBA.Name ∧
    c4ProjAB.DatabaseType = c4ProjBA.DatabaseType ∧
    c4ProjAB.Note = c4ProjBA.Note ∧
    c4ProjAB.Enums = c4ProjBA.Enums ∧
    c4ProjAB.TableGroups = c4ProjBA.TableGroups ∧
    c4ProjAB.Refs = c4ProjBA.Refs ∧
    Project.Generate c4ProjAB ≠ Project.Generate c4ProjBA := by
  refine ⟨List.Perm.swap _ _ _, rfl, rfl, rfl, rfl, rfl, rfl, ?_⟩
  decide

/-- C4 amended: `Generate` is deterministic given the graph together
with the iteration order of its map-valued collections — two calls that
see the same field contents (including the same enumeration order of
`Tables`, `Enums` and each table's `Settings`) return byte-identical
output.  Unconditional byte-identity across repeated calls does not hold
because Go map iteration order is unspecified. -/
theorem generate_deterministic_for_fixed_iteration_order (p q : Project)
    (h1 : p.Name = q.Name) (h2 : p.DatabaseType = q.DatabaseType) (h3 : p.Note = q.Note)
    (h4 : p.Tables = q.Tables) (h5 : p.Enums = q.Enums)
    (h6 : p.TableGroups = q.TableGroups) (h7 : p.Refs = q.Refs) :
    Project.Generate p = Project.Generate q := by
  obtain ⟨n, d, no, tb, en, tg, rf⟩ := p
  obtain ⟨n2, d2, no2, tb2, en2, tg2, rf2⟩ := q
  simp only at h1 h2 h3 h4 h5 h6 h7
  subst h1 h2 h3 h4 h5 h6 h7
  rfl

/-- C4 witness: the amended theorem applied to `c4ProjAB` against
itself. -/
theorem generate_deterministic_witness :
    Project.Generate c4ProjAB = Project.Generate c4ProjAB :=
  generate_deterministic_for_fixed_iteration_order c4ProjAB c4ProjAB rfl rfl rfl rfl rfl rfl rfl

/-- C6: every column renders as name, a space, the type, and — only when
at least one attribute applies — a bracketed comma-joined attribute list
in the fixed order pk, unique, not null (exactly when the nullable flag
is false), increment, default (verbatim), check (escaped, quoted), ref
(cardinality symbol and fully qualified target), note (escaped,
quoted), as captured by the spec-side `specColumnAttrs`. -/
theorem generate_column_attribute_order (c : Column) :
    Column.Generate c = c.Name ++ " " ++ c.type_ ++
      (if specColumnAttrs c = [] then ""
       else " [" ++ joinSep ", " (specColumnAttrs c) ++ "]") := by
  have h : columnSettingsList c = specColumnAttrs c := by
    obtain ⟨cs, cn, cir, cna, cty⟩ := c
    unfold columnSettingsList columnSettingAttrs columnRefAttr columnNoteAttr specColumnAttrs
    cases cs with
    | none => cases cir <;> cases cn <;> simp
    | some s =>
      obtain ⟨d, ch, pk, nl, un, inc⟩ := s
      cases cir <;> cases cn <;> cases d <;> cases ch <;> cases nl <;> simp
  unfold Column.Generate
  rw [h]
  cases hl : specColumnAttrs c with
  | nil => simp [hl]
  | cons a as => simp

/-- C9: a column with no settings bundle contributes none of the pk,
unique, not-null, increment, default or check attributes, so with no
inline ref and no note it renders with no attribute list at all; a
column whose bundle is present with every field at its zero value
contributes exactly `not null`, because `not null` is emitted whenever
the bundle is present and its nullable flag is false. -/
theorem generate_column_nil_vs_default_settings (c : Column) :
    (c.Settings = none → columnSettingsList c = columnRefAttr c ++ columnNoteAttr c) ∧
    (c.Settings = none → c.InlineRef = none → c.Note = none →
      Column.Generate c = c.Name ++ " " ++ c.type_) ∧
    (c.Settings = some ⟨none, none, false, false, false, false⟩ →
      columnSettingAttrs c = ["not null"]) ∧
    (c.Settings = some ⟨none, none, false, false, false, false⟩ → c.InlineRef = none →
      c.Note = none →
      Column.Generate c = c.Name ++ " " ++ c.type_ ++ (" [" ++ "not null" ++ "]")) := by
  refine ⟨?_, ?_, ?_, ?_⟩
  · intro h
    unfold columnSettingsList columnSettingAttrs
    rw [h]
    rfl
  · intro h1 h2 h3
    unfold Column.Generate columnSettingsList columnSettingAttrs columnRefAttr columnNoteAttr
    rw [h1, h2, h3]
    simp
  · intro h
    unfold columnSettingAttrs
    rw [h]
    rfl
  · intro h1 h2 h3
    unfold Column.Generate columnSettingsList columnSettingAttrs columnRefAttr columnNoteAttr
    rw [h1, h2, h3]
    rfl

/-- C9 witness: the theorem applied to the concrete columns `c9ColNil`
(no settings bundle) and `c9ColDefaults` (bundle at zero values). -/
theorem generate_column_settings_witness :
    Column.Generate c9ColNil = c9ColNil.Name ++ " " ++ c9ColNil.type_ ∧
    columnSettingAttrs c9ColDefaults = ["not null"] ∧
    Column.Generate c9ColDefaults =
      c9ColDefaults.Name ++ " " ++ c9ColDefaults.type_ ++ (" [" ++ "not null" ++ "]") :=
  ⟨(generate_column_nil_vs_default_settings c9ColNil).2.1 rfl rfl rfl,
   (generate_column_nil_vs_default_settings c9ColDefaults).2.2.1 rfl,
   (generate_column_nil_vs_default_settings c9ColDefaults).2.2.2 rfl rfl rfl⟩

/-- C10: the inline-relationship attribute always fully qualifies its
target as `schema.table.column` — no default-schema elision — so a
target in schema `public` renders with the literal `public.` prefix,
unlike table, enum, table-group-member and ref-endpoint names. -/
theorem generate_inline_ref_not_elided :
    (∀ (c : Column) (r : InlineRef), c.InlineRef = some r →
      columnRefAttr c =
        ["ref: " ++ r.type_ ++ " " ++ (r.Schema ++ "." ++ r.Table ++ "." ++ r.Column)]) ∧
    (∀ name ty rel tbl col : String,
      Column.Generate ⟨none, none, some ⟨rel, "public", tbl, col⟩, name, ty⟩ =
      name ++ " " ++ ty ++
        (" [" ++ ("ref: " ++ rel ++ " " ++ ("public" ++ "." ++ tbl ++ "." ++ col)) ++ "]")) := by
  constructor
  · intro c r h
    unfold columnRefAttr
    rw [h]
  · intro name ty rel tbl col
    rfl

/-- C10 witness: the theorem applied to the concrete column `c10Col`,
whose inline ref targets `public.users.id`. -/
theorem generate_inline_ref_witness :
    c10Col.InlineRef = some ⟨">", "public", "users", "id"⟩ ∧
    columnRefAttr c10Col =
      ["ref: " ++ ">" ++ " " ++ ("public" ++ "." ++ "users" ++ "." ++ "id")] :=
  ⟨rfl, generate_inline_ref_not_elided.1 c10Col ⟨">", "public", "users", "id"⟩ rfl⟩

theorem strConcat_map_congr {α : Type} (f g : α → String) (l : List α)
    (h : ∀ x, f x = g x) : strConcat (l.map f) = strConcat (l.map g) := by
  induction l with
  | nil => rfl
  | cons x xs ih => simp [strConcat, h x, ih]

/-- C5: every qualified name of a table, an enum, a table-group member
or a ref endpoint is rendered with the schema prefix elided exactly when
the schema is the literal `"public"`, and as `schema.name` for any other
schema, as captured by the spec-side `specQualify`. -/
theorem generate_schema_elision :
    (∀ t : Table, ∃ rest, Table.Generate t = "Table " ++ specQualify t.Schema t.Name ++ rest) ∧
    (∀ e : Enum, ∃ rest, Enum.Generate e = "Enum " ++ specQualify e.Schema e.Name ++ rest) ∧
    (∀ g : TableGroup, TableGroup.Generate g =
      "TableGroup " ++ g.Name ++ " \x7b\n" ++
        strConcat (g.Tables.map (fun tr => "  " ++ specQualify tr.Schema tr.Name ++ "\n")) ++
        "\x7d\n") ∧
    (∀ ep : RefEndpoint, ∃ rest,
      formatRefEndpoint (some ep) = specQualify ep.Schema ep.Table ++ "." ++ rest) := by
  refine ⟨?_, ?_, ?_, ?_⟩
  · intro t
    refine ⟨(match t.Alias with | some a => " as " ++ a | none => "") ++ Table.bodyPart t, ?_⟩
    unfold Table.Generate Table.headerName
    by_cases h : t.Schema = "public"
    · simp [specQualify, defaultSchema, h, String.append_assoc]
    · simp [specQualify, defaultSchema, h, String.append_assoc]
  · intro e
    refine ⟨" \x7b\n" ++ strConcat (e.Values.map enumValueLine) ++
      (match e.Note with
       | some n => "\n" ++ "  Note: '" ++ escapeString n ++ "'\n"
       | none => "") ++ "\x7d\n", ?_⟩
    unfold Enum.Generate
    by_cases h : e.Schema = "public"
    · simp [specQualify, defaultSchema, h, String.append_assoc]
    · simp [specQualify, defaultSchema, h, String.append_assoc]
  · intro g
    unfold TableGroup.Generate
    have hf : ∀ tr : TableRef,
        "  " ++ (if tr.Schema ≠ defaultSchema then tr.Schema ++ "." ++ tr.Name else tr.Name) ++
          "\n" = "  " ++ specQualify tr.Schema tr.Name ++ "\n" := by
      intro tr
      by_cases h : tr.Schema = "public"
      · simp [specQualify, defaultSchema, h]
      · simp [specQualify, defaultSchema, h]
    rw [strConcat_map_congr _ _ g.Tables hf]
  · intro ep
    obtain ⟨sch, tbl, cols⟩ := ep
    rcases cols with _ | ⟨c, _ | ⟨d, rest⟩⟩
    · refine ⟨"(" ++ joinSep ", " ([] : List String) ++ ")", ?_⟩
      show (if sch ≠ defaultSchema then sch ++ "." ++ tbl else tbl) ++ "." ++ "(" ++
        joinSep ", " [] ++ ")" = _
      by_cases h : sch = "public"
      · simp [specQualify, defaultSchema, h, String.append_assoc]
        rw [show (".(" : String) = "." ++ "(" from by decide, String.append_assoc]
      · simp [specQualify, defaultSchema, h, String.append_assoc]
        rw [show (".(" : String) = "." ++ "(" from by decide, String.append_assoc]
    · refine ⟨c, ?_⟩
      show (if sch ≠ defaultSchema then sch ++ "." ++ tbl else tbl) ++ "." ++ c = _
      by_cases h : sch = "public"
      · simp [specQualify, defaultSchema, h]
      · simp [specQualify, defaultSchema, h]
    · refine ⟨"(" ++ joinSep ", " (c :: d :: rest) ++ ")", ?_⟩
      show (if sch ≠ defaultSchema then sch ++ "." ++ tbl else tbl) ++ "." ++ "(" ++
        joinSep ", " (c :: d :: rest) ++ ")" = _
      by_cases h : sch = "public"
      · simp [specQualify, defaultSchema, h, String.append_assoc]
        rw [show (".(" : String) = "." ++ "(" from by decide, String.append_assoc]
      · simp [specQualify, defaultSchema, h, String.append_assoc]
        rw [show (".(" : String) = "." ++ "(" from by decide, String.append_assoc]

theorem validateIndexColumns_none_iff (cols : List IndexColumn) : ∀ k : Nat,
    validateIndexColumns k cols = none ↔
      ∀ col ∈ cols, ¬((col.Name = none ∧ col.Expression = none) ∨
        (col.Name ≠ none ∧ col.Expression ≠ none)) := by
  induction cols with
  | nil => intro k; simp [validateIndexColumns]
  | cons col rest ih =>
    intro k
    unfold validateIndexColumns
    by_cases h1 : col.Name = none ∧ col.Expression = none
    · simp [h1]
    · by_cases h2 : col.Name ≠ none ∧ col.Expression ≠ none
      · simp [h1, h2]
      · simp [h1, h2, ih (k + 1)]
        tauto

/-- C7: `Index.Validate` returns an error exactly when the column list
is empty or some index column has neither or both of name and
expression set; an index whose every column has exactly one of the two
set — such as a single-expression index — validates successfully. -/
theorem index_validate_error_iff :
    (∀ i : Index, Index.Validate i ≠ none ↔
      (i.Columns = [] ∨ ∃ col ∈ i.Columns,
        (col.Name = none ∧ col.Expression = none) ∨
        (col.Name ≠ none ∧ col.Expression ≠ none))) ∧
    (∀ i : Index, i.Columns ≠ [] →
      (∀ col ∈ i.Columns,
        (col.Name = none ∧ col.Expression ≠ none) ∨
        (col.Name ≠ none ∧ col.Expression = none)) →
      Index.Validate i = none) := by
  constructor
  · intro i
    unfold Index.Validate
    by_cases h : i.Columns.length = 0
    · rw [if_pos h]
      rw [List.length_eq_zero] at h
      simp [h]
    · rw [if_neg h]
      rw [List.length_eq_zero] at h
      have hiff := validateIndexColumns_none_iff i.Columns 0
      constructor
      · intro hne
        right
        by_contra hhyp
        push_neg at hhyp
        refine hne (hiff.mpr ?_)
        intro col hm
        have := hhyp col hm
        tauto
      · intro hor
        rcases hor with hempty | ⟨col, hm, hbad⟩
        · exact absurd hempty h
        · intro hnone
          exact (hiff.mp hnone col hm) hbad
  · intro i hne hone
    unfold Index.Validate
    rw [if_neg (fun hl => hne (List.length_eq_zero.mp hl))]
    rw [validateIndexColumns_none_iff i.Columns 0]
    intro col hm hbad
    have := hone col hm
    tauto

/-- C7 witness: the theorem applied to the concrete single-expression
index `c7ExprIndex`, which validates successfully. -/
theorem index_validate_expression_witness :
    c7ExprIndex.Columns ≠ [] ∧ Index.Validate c7ExprIndex = none :=
  ⟨by decide, index_validate_error_iff.2 c7ExprIndex (by decide) (by decide)⟩

/-- C1 counterexample: a `Ref` with both endpoints fully populated
(non-empty schema, table, at least one column), a recognized
cardinality, one left column and two right columns — yet
`Ref.Validate` reports no error: the code performs no left/right
column-count symmetry check. -/
theorem ref_validate_count_mismatch_counterexample :
    c1Ref.Left = some ⟨"public", "posts", ["a"]⟩ ∧
    c1Ref.Right = some ⟨"public", "users", ["a", "b"]⟩ ∧
    validRelType c1Ref.type_ = true ∧
    (["a"] : List String).length ≠ (["a", "b"] : List String).length ∧
    Ref.Validate c1Ref = none := by
  refine ⟨rfl, rfl, by decide, by decide, by decide⟩

/-- C1 amended: for every `Ref` whose endpoints are both present with
non-empty schema, table and at least one column each, whose cardinality
is recognized, and whose referential actions (if present) are
recognized, `Ref.Validate` returns no error even when the two endpoints
have different column counts — the validator checks no column-count
symmetry. -/
theorem ref_validate_no_column_count_check (r : Ref) (l rt : RefEndpoint)
    (hL : r.Left = some l) (hR : r.Right = some rt)
    (hT : validRelType r.type_ = true)
    (hls : l.Schema ≠ "") (hlt : l.Table ≠ "") (hlc : l.Columns ≠ [])
    (hrs : rt.Schema ≠ "") (hrtb : rt.Table ≠ "") (hrc : rt.Columns ≠ [])
    (hD : ∀ a, r.OnDelete = some a → validRefAction a = true)
    (hU : ∀ a, r.OnUpdate = some a → validRefAction a = true)
    (_hkm : l.Columns.length ≠ rt.Columns.length) :
    Ref.Validate r = none := by
  have hTne : ¬ r.type_ = "" := by
    intro h
    rw [h] at hT
    simp [validRelType, OneToMany, ManyToOne, OneToOne, ManyToMany] at hT
  have hle : RefEndpoint.Validate l = none := by
    unfold RefEndpoint.Validate
    rw [if_neg hls, if_neg hlt, if_neg (fun hz => hlc (List.length_eq_zero.mp hz))]
  have hre : RefEndpoint.Validate rt = none := by
    unfold RefEndpoint.Validate
    rw [if_neg hrs, if_neg hrtb, if_neg (fun hz => hrc (List.length_eq_zero.mp hz))]
  unfold Ref.Validate
  rw [hL, hR]
  dsimp only
  rw [if_neg hTne, if_neg (not_not_intro hT)]
  rw [hle, hre]
  cases hd : r.OnDelete with
  | some a =>
    have ha := hD a hd
    cases hu : r.OnUpdate with
    | some b =>
      have hb := hU b hu
      simp [firstErr, validateRefAction, ha, hb]
    | none =>
      simp [firstErr, validateRefAction, ha]
  | none =>
    cases hu : r.OnUpdate with
    | some b =>
      have hb := hU b hu
      simp [firstErr, validateRefAction, hb]
    | none =>
      simp [firstErr]

/-- C1 amended witness: the amended theorem applied to the concrete ref
`c1Ref` with column counts one and two. -/
theorem ref_validate_no_column_count_check_witness :
    c1Ref.Left = some ⟨"public", "posts", ["a"]⟩ ∧ Ref.Validate c1Ref = none :=
  ⟨rfl, ref_validate_no_column_count_check c1Ref ⟨"public", "posts", ["a"]⟩
    ⟨"public", "users", ["a", "b"]⟩ rfl rfl (by decide) (by decide) (by decide) (by decide)
    (by decide) (by decide) (by decide)
    (fun a h => Option.noConfusion h) (fun a h => Option.noConfusion h) (by decide)⟩

theorem refEndpoint_validate_eq_head (e : RefEndpoint) :
    RefEndpoint.Validate e = (endpointViolations e).head? := by
  unfold RefEndpoint.Validate endpointViolations
  split_ifs <;> simp

theorem inlineRef_validate_eq_head (r : InlineRef) :
    InlineRef.Validate r = (inlineRefViolations r).head? := by
  unfold InlineRef.Validate inlineRefViolations
  split_ifs <;> simp_all

theorem column_validate_eq_head (c : Column) :
    Column.Validate c = (columnViolations c).head? := by
  unfold Column.Validate columnViolations
  split_ifs
  all_goals try simp
  cases hir : c.InlineRef with
  | none => simp
  | some ir =>
    simp only [List.nil_append]
    rw [inlineRef_validate_eq_head ir]
    exact map_head? _ _

theorem refaction_check_eq_head (pre a : String) :
    Option.map (fun e => pre ++ e) (validateRefAction a) =
      (if ¬ validRefAction a then
        [pre ++ validationError "RefAction" ("invalid referential action: " ++ a)]
      else []).head? := by
  unfold validateRefAction
  split_ifs <;> simp

theorem refactions_eq_head (od ou : Option String) :
    firstErr
      (match od with
       | some a => Option.map (fun e => "on_delete: " ++ e) (validateRefAction a)
       | none => none)
      (match ou with
       | some a => Option.map (fun e => "on_update: " ++ e) (validateRefAction a)
       | none => none) =
    ((match od with
      | some a =>
        if ¬ validRefAction a then
          ["on_delete: " ++ validationError "RefAction" ("invalid referential action: " ++ a)]
        else []
      | none => []) ++
     (match ou with
      | some a =>
        if ¬ validRefAction a then
          ["on_update: " ++ validationError "RefAction" ("invalid referential action: " ++ a)]
        else []
      | none => [])).head? := by
  cases od with
  | none =>
    cases ou with
    | none => rfl
    | some b => exact firstErr_eq_head _ _ _ _ rfl (refaction_check_eq_head "on_update: " b)
  | some a =>
    cases ou with
    | none =>
      exact firstErr_eq_head _ _ _ _ (refaction_check_eq_head "on_delete: " a) rfl
    | some b =>
      exact firstErr_eq_head _ _ _ _ (refaction_check_eq_head "on_delete: " a)
        (refaction_check_eq_head "on_update: " b)

theorem ref_validate_eq_head (r : Ref) :
    Ref.Validate r = (refViolations r).head? := by
  unfold Ref.Validate refViolations
  cases hL : r.Left with
  | none => simp
  | some l =>
    cases hR : r.Right with
    | none => simp
    | some rt =>
      dsimp only
      rw [if_neg (fun hc => Option.noConfusion hc), if_neg (fun hc => Option.noConfusion hc)]
      simp only [List.nil_append]
      by_cases h1 : r.type_ = ""
      · simp [h1]
      · by_cases h2 : validRelType r.type_
        · simp only [if_neg h1, if_neg (not_not_intro h2), List.nil_append,
            List.append_assoc]
          have hX : Option.map (fun e => "left: " ++ e) (RefEndpoint.Validate l) =
              ((endpointViolations l).map (fun e => "left: " ++ e)).head? := by
            rw [refEndpoint_validate_eq_head l]
            exact map_head? _ _
          have hY : Option.map (fun e => "right: " ++ e) (RefEndpoint.Validate rt) =
              ((endpointViolations rt).map (fun e => "right: " ++ e)).head? := by
            rw [refEndpoint_validate_eq_head rt]
            exact map_head? _ _
          exact firstErr_eq_head _ _ _ _ hX
            (firstErr_eq_head _ _ _ _ hY (refactions_eq_head r.OnDelete r.OnUpdate))
        · have h2' : ¬ validRelType r.type_ := by simpa using h2
          simp [h1, h2']

theorem validateIndexColumns_eq_head (cols : List IndexColumn) : ∀ k : Nat,
    validateIndexColumns k cols = (indexColumnViolations k cols).head? := by
  induction cols with
  | nil => intro k; rfl
  | cons col rest ih =>
    intro k
    unfold validateIndexColumns indexColumnViolations
    split_ifs <;> simp [ih (k + 1)]

theorem index_validate_eq_head (i : Index) :
    Index.Validate i = (indexViolations i).head? := by
  unfold Index.Validate indexViolations
  split_ifs with h
  · simp
  · simp [validateIndexColumns_eq_head]

theorem validateSeq_eq_head {α : Type} (fv : α → Option String) (fl : α → List String)
    (hf : ∀ x, fv x = (fl x).head?) (label : String) (xs : List α) : ∀ k : Nat,
    validateSeq fv label k xs = (seqViolations fl label k xs).head? := by
  induction xs with
  | nil => intro k; rfl
  | cons x rest ih =>
    intro k
    unfold validateSeq seqViolations
    rw [hf x]
    cases hx : fl x with
    | nil => simp [ih (k + 1)]
    | cons e es => simp

theorem validateKeyed_eq_head {α : Type} (fv : α → Option String) (fl : α → List String)
    (hf : ∀ x, fv x = (fl x).head?) (label : String) (xs : List (String × α)) :
    validateKeyed fv label xs = (keyedViolations fl label xs).head? := by
  induction xs with
  | nil => rfl
  | cons kx rest ih =>
    obtain ⟨k, x⟩ := kx
    unfold validateKeyed keyedViolations
    rw [hf x]
    cases hx : fl x with
    | nil => simp [ih]
    | cons e es => simp

theorem table_validate_eq_head (t : Table) :
    Table.Validate t = (tableViolations t).head? := by
  unfold Table.Validate tableViolations
  split_ifs
  all_goals try simp
  rw [validateSeq_eq_head _ _ column_validate_eq_head "column" t.Columns 0,
    validateSeq_eq_head _ _ index_validate_eq_head "index" t.Indexes 0, firstErr_eq_or]

theorem enum_validate_eq_head (e : Enum) :
    Enum.Validate e = (enumViolations e).head? := by
  unfold Enum.Validate enumViolations
  split_ifs <;> simp

theorem validateTableRefs_eq_head (trs : List TableRef) : ∀ k : Nat,
    validateTableRefs k trs = (tableRefViolations k trs).head? := by
  induction trs with
  | nil => intro k; rfl
  | cons tr rest ih =>
    intro k
    unfold validateTableRefs tableRefViolations
    split_ifs <;> simp [ih (k + 1)]

theorem tableGroup_validate_eq_head (g : TableGroup) :
    TableGroup.Validate g = (tableGroupViolations g).head? := by
  unfold TableGroup.Validate tableGroupViolations
  split_ifs <;> simp [validateTableRefs_eq_head]

/-- C3: `Project.Validate` returns exactly the first violation of the
whole graph in the documented traversal order — project-level required
fields, then each table (its own fields, then columns in declared
order, then indexes in declared order), then enums, then refs in
declared order, then table groups in declared order — with every parent
wrapping the child's error with its path segment (map key or zero-based
index), as captured by the spec-side `projectViolations` list: the
result is `none` when there is no violation and the head of that list
otherwise. -/
theorem project_validate_first_violation (p : Project) :
    Project.Validate p = (projectViolations p).head? := by
  unfold Project.Validate projectViolations
  split_ifs with h
  · simp
  · simp only [List.nil_append, List.append_assoc]
    exact firstErr_eq_head _ _ _ _
      (validateKeyed_eq_head _ _ table_validate_eq_head "table" p.Tables)
      (firstErr_eq_head _ _ _ _
        (validateKeyed_eq_head _ _ enum_validate_eq_head "enum" p.Enums)
        (firstErr_eq_head _ _ _ _
          (validateSeq_eq_head _ _ ref_validate_eq_head "ref" p.Refs 0)
          (validateSeq_eq_head _ _ tableGroup_validate_eq_head "table_group" p.TableGroups 0)))
